import Mathlib

/-!
Verification of the DeviceShare scheduler plugin
(`pkg/scheduler/plugins/deviceshare/plugin.go`).

The plugin is embedded shallowly: each phase (`PreFilter`, `Filter`,
`Reserve`, `Unreserve`, `PreBind`) becomes a pure function taking the
attempt state, the node-device cache and the allocator explicitly and
returning the framework status together with the updated state.  The
collaborators whose Go sources are outside the verified slice
(the resource validators/converters, the allocator implementation, the
bounded-retry helper, the API-server patch call) are modelled from the
specification; each such definition carries a doc comment saying so.
-/

set_option maxHeartbeats 1000000

/-- Device types handled by the plugin, mirroring the keys of
`DeviceResourceNames` (GPU, RDMA, FPGA). -/
inductive DeviceType where
  | GPU
  | RDMA
  | FPGA
deriving DecidableEq, Repr

/-- Framework status codes used by the plugin (success is Go's nil status). -/
inductive StatusCode where
  | Success
  | Error
  | Unschedulable
  | UnschedulableAndUnresolvable
deriving DecidableEq, Repr

/-- A `framework.Status`: a code plus a message.  Go's `nil` status is
modelled as `successStatus`. -/
structure Status where
  code : StatusCode
  message : String
deriving DecidableEq, Repr

/-- Go's nil status: every phase returns this on success. -/
def successStatus : Status := ⟨StatusCode.Success, ""⟩

/-- `Status.IsSuccess`: Go treats a nil status as success. -/
def Status.IsSuccess (s : Status) : Bool := s.code == StatusCode.Success

/-- `ErrMissingDevice` — message when the node has no Device record. -/
def ErrMissingDevice : String := "node(s) missing Device"

/-- `ErrInsufficientDevices` — message when the node cannot satisfy the
requested device resources. -/
def ErrInsufficientDevices : String := "Insufficient Devices"

/-- A resource list: association list from resource name to a quantity in
milli-units (k8s quantities are modelled at milli precision so that
fractional/malformed unit-count asks are representable). -/
abbrev Req := List (String × Int)

/-- Look a resource name up in a resource ask. -/
def lookupReq (req : Req) (name : String) : Option Int :=
  match req.find? (fun e => e.1 == name) with
  | some e => some e.2
  | none => none

/-- Modelled from the spec: the vendor-style device resource names consumed
by the normalizer (`DeviceResourceNames` in the source tree, absent from the
verified slice). -/
def DeviceResourceNames : DeviceType → List String
  | DeviceType.GPU => ["vendor/gpu", "vendor/gpu-core", "vendor/gpu-memory-ratio", "vendor/gpu-memory"]
  | DeviceType.RDMA => ["vendor/rdma"]
  | DeviceType.FPGA => ["vendor/fpga"]

/-- Modelled from the spec: `hasDeviceResource` — whether the pod request
mentions any resource name of the given device type. -/
def hasDeviceResource (req : Req) (t : DeviceType) : Bool :=
  (DeviceResourceNames t).any (fun n => (lookupReq req n).isSome)

/-- The mutually exclusive GPU request combinations of the spec: whole-card
count, core-percentage + memory-ratio, core-percentage + absolute memory. -/
inductive GPUCombo where
  | wholeCard
  | coreMemRatio
  | coreMem
deriving DecidableEq, Repr

/-- Error message for an inconsistent GPU request shape. -/
def InvalidGPUCombination : String := "invalid GPU request combination"

/-- Error message for a malformed RDMA/FPGA quantity. -/
def InvalidDeviceQuantity : String := "invalid device quantity"

/-- Modelled from the spec: `ValidateGPURequest` — exactly one of the GPU
request combinations must be used; mixing them fails with
`InvalidGPUCombination`. -/
def ValidateGPURequest (req : Req) : Except String GPUCombo :=
  let hg := (lookupReq req "vendor/gpu").isSome
  let hc := (lookupReq req "vendor/gpu-core").isSome
  let hr := (lookupReq req "vendor/gpu-memory-ratio").isSome
  let hm := (lookupReq req "vendor/gpu-memory").isSome
  if hg && !hc && !hr && !hm then Except.ok GPUCombo.wholeCard
  else if !hg && hc && hr && !hm then Except.ok GPUCombo.coreMemRatio
  else if !hg && hc && !hr && hm then Except.ok GPUCombo.coreMem
  else Except.error InvalidGPUCombination

/-- Quantity of a resource in whole units (milli value divided by 1000),
zero when absent. -/
def unitValue (req : Req) (name : String) : Int :=
  ((lookupReq req name).getD 0) / 1000

/-- Modelled from the spec: `ConvertGPUResource` — converts the winning GPU
combination to the common percentage-of-card scale, returned as a pointwise
resource map (total function, zero outside its support). -/
def ConvertGPUResource (req : Req) (combo : GPUCombo) : String → Int :=
  match combo with
  | GPUCombo.wholeCard => fun r =>
      if r = "vendor/gpu-core" then unitValue req "vendor/gpu" * 100
      else if r = "vendor/gpu-memory-ratio" then unitValue req "vendor/gpu" * 100
      else 0
  | GPUCombo.coreMemRatio => fun r =>
      if r = "vendor/gpu-core" then (lookupReq req "vendor/gpu-core").getD 0 / 1000
      else if r = "vendor/gpu-memory-ratio" then (lookupReq req "vendor/gpu-memory-ratio").getD 0 / 1000
      else 0
  | GPUCombo.coreMem => fun r =>
      if r = "vendor/gpu-core" then (lookupReq req "vendor/gpu-core").getD 0 / 1000
      else if r = "vendor/gpu-memory" then (lookupReq req "vendor/gpu-memory").getD 0 / 1000
      else 0

/-- The single resource name carrying a device type's normalized quantity. -/
def canonicalKey : DeviceType → String
  | DeviceType.GPU => "vendor/gpu-core"
  | DeviceType.RDMA => "vendor/rdma"
  | DeviceType.FPGA => "vendor/fpga"

/-- Modelled from the spec: `validateCommonDeviceRequest` — an RDMA/FPGA ask
must be a non-negative whole unit count; anything else fails with
`InvalidDeviceQuantity`. -/
def validateCommonDeviceRequest (req : Req) (t : DeviceType) : Except String Unit :=
  let q := (lookupReq req (canonicalKey t)).getD 0
  if 0 ≤ q && q % 1000 == 0 then Except.ok ()
  else Except.error InvalidDeviceQuantity

/-- Modelled from the spec: `convertCommonDeviceResource` — an RDMA/FPGA ask
normalizes to its whole unit count under the type's canonical name. -/
def convertCommonDeviceResource (req : Req) (t : DeviceType) : String → Int :=
  fun r => if r = canonicalKey t then unitValue req (canonicalKey t) else 0

/-- `quotav1.Add`: pointwise addition of resource maps. -/
def quotaAdd (a b : String → Int) : String → Int := fun r => a r + b r

/-- The resource map with empty support (`make(corev1.ResourceList)`). -/
def emptyResources : String → Int := fun _ => 0

/-- One allocation entry: (minor identifier, amount). -/
abbrev AllocEntry := Nat × Nat

/-- `apiext.DeviceAllocations`: map from device type to the selected
(minor, amount) pairs, as an association list so that Go's `len` check on
the map is meaningful. -/
abbrev DeviceAllocations := List (DeviceType × List AllocEntry)

/-- `preFilterState` — the per-attempt cycle state written by PreFilter. -/
structure preFilterState where
  skip : Bool
  allocationResult : DeviceAllocations
  convertedDeviceResource : String → Int

/-- A pod, reduced to the fields the plugin consumes: a name identifying the
workload and its per-container resource requests. -/
structure Pod where
  name : String
  containers : List Req

/-- Add one container's request into an aggregate (presence-aware pointwise
addition on association lists). -/
def insertReq (acc : Req) (kv : String × Int) : Req :=
  if (lookupReq acc kv.1).isSome then
    acc.map (fun e => if e.1 == kv.1 then (e.1, e.2 + kv.2) else e)
  else acc ++ [kv]

/-- Modelled from the spec: `resource.PodRequestsAndLimits` (external k8s
helper) — the pod's aggregate resource request, the pointwise sum of its
container requests. -/
def podRequest (pod : Pod) : Req :=
  pod.containers.foldl (fun acc c => c.foldl insertReq acc) []

/-- One step of PreFilter's loop over `DeviceResourceNames`: the switch body
for a single device type, translated from the source (validation first, then
pointwise addition of the converted resources and clearing of `skip`). -/
def stepDevice (req : Req) (state : preFilterState) : DeviceType → Except String preFilterState
  | DeviceType.GPU =>
      if !hasDeviceResource req DeviceType.GPU then Except.ok state
      else
        match ValidateGPURequest req with
        | Except.error e => Except.error e
        | Except.ok combo =>
            Except.ok { state with
              skip := false
              convertedDeviceResource :=
                quotaAdd state.convertedDeviceResource (ConvertGPUResource req combo) }
  | DeviceType.RDMA =>
      if !hasDeviceResource req DeviceType.RDMA then Except.ok state
      else
        match validateCommonDeviceRequest req DeviceType.RDMA with
        | Except.error e => Except.error e
        | Except.ok _ =>
            Except.ok { state with
              skip := false
              convertedDeviceResource :=
                quotaAdd state.convertedDeviceResource (convertCommonDeviceResource req DeviceType.RDMA) }
  | DeviceType.FPGA =>
      if !hasDeviceResource req DeviceType.FPGA then Except.ok state
      else
        match validateCommonDeviceRequest req DeviceType.FPGA with
        | Except.error e => Except.error e
        | Except.ok _ =>
            Except.ok { state with
              skip := false
              convertedDeviceResource :=
                quotaAdd state.convertedDeviceResource (convertCommonDeviceResource req DeviceType.FPGA) }

/-- PreFilter's loop over the device types, threading the attempt state and
aborting on the first validation error. -/
def preFilterLoop (req : Req) : List DeviceType → preFilterState → Except String preFilterState
  | [], state => Except.ok state
  | t :: ts, state =>
      match stepDevice req state t with
      | Except.error e => Except.error e
      | Except.ok state' => preFilterLoop req ts state'

/-- The state PreFilter starts from: `skip=true`, empty converted resources. -/
def initPreFilterState : preFilterState :=
  { skip := true, allocationResult := [], convertedDeviceResource := emptyResources }

/-- A canonical iteration order for `DeviceResourceNames`; Go iterates the
map in an unspecified order, so theorems about PreFilter are proved for
every permutation of this list. -/
def deviceTypeOrder : List DeviceType := [DeviceType.GPU, DeviceType.RDMA, DeviceType.FPGA]

/-- `Plugin.PreFilter` over an explicit device-type iteration order: returns
the phase status and the state written to the cycle state (`none` when the
phase aborts with an error and writes nothing). -/
def PreFilterRun (order : List DeviceType) (req : Req) : Status × Option preFilterState :=
  match preFilterLoop req order initPreFilterState with
  | Except.error e => (⟨StatusCode.Error, e⟩, none)
  | Except.ok state => (successStatus, some state)

/-- `Plugin.PreFilter`, at the canonical iteration order: computes the
attempt state from the pod's aggregate request. -/
def PluginPreFilter (pod : Pod) : Status × Option preFilterState :=
  PreFilterRun deviceTypeOrder (podRequest pod)

/-- One device unit of a node's inventory record: type, minor identifier,
total and used capacity, health. -/
structure DeviceUnit where
  deviceType : DeviceType
  minor : Nat
  total : Nat
  used : Nat
  healthy : Bool
deriving DecidableEq, Repr

/-- `nodeDevice` — a node's device record: its units plus the recorded
workload → allocation map. -/
structure nodeDevice where
  units : List DeviceUnit
  allocations : List (String × DeviceAllocations)
deriving DecidableEq, Repr

/-- The node-device cache: node name → device record.  Mutation through a
record pointer in Go is modelled by updating the cache entry in place. -/
abbrev NodeDeviceCache := List (String × nodeDevice)

/-- `nodeDeviceCache.getNodeDevice` — cache lookup by node name. -/
def getNodeDevice (cache : NodeDeviceCache) (nodeName : String) : Option nodeDevice :=
  match cache.find? (fun e => e.1 == nodeName) with
  | some e => some e.2
  | none => none

/-- Replace a node's record in the cache (the effect of mutating the record
returned by `getNodeDevice` through its pointer). -/
def updateNodeDevice (cache : NodeDeviceCache) (nodeName : String) (nd : nodeDevice) : NodeDeviceCache :=
  cache.map (fun e => if e.1 == nodeName then (e.1, nd) else e)

/-- The allocator interface consumed by the plugin.  `Allocate` is a
dry-run returning (result, error) like the Go method pair; `Reserve` and
`Unreserve` mutate the node record, modelled by returning the new record. -/
structure Allocator where
  Allocate : String → Pod → (String → Int) → nodeDevice → DeviceAllocations × Option String
  Reserve : Pod → nodeDevice → DeviceAllocations → nodeDevice
  Unreserve : Pod → nodeDevice → DeviceAllocations → nodeDevice

/-- `Plugin.Filter`, translated from the source: skip fast-path, nil-node
check, cache lookup, then the allocator dry-run under the read lock.  The
cache is threaded through so that the read-only (frame) property is a
statement, not a typing accident. -/
def PluginFilter (alloc : Allocator) (cache : NodeDeviceCache) (cycleState : Option preFilterState)
    (pod : Pod) (nodeInfo : Option String) : Status × NodeDeviceCache :=
  match cycleState with
  | none => (⟨StatusCode.Error, "preFilterState not found"⟩, cache)
  | some state =>
    if state.skip then (successStatus, cache)
    else
      match nodeInfo with
      | none => (⟨StatusCode.Error, "node not found"⟩, cache)
      | some nodeName =>
        match getNodeDevice cache nodeName with
        | none => (⟨StatusCode.UnschedulableAndUnresolvable, ErrMissingDevice⟩, cache)
        | some nodeDeviceInfo =>
          let result := alloc.Allocate nodeName pod state.convertedDeviceResource nodeDeviceInfo
          if result.1.length ≠ 0 ∧ result.2 = none then (successStatus, cache)
          else (⟨StatusCode.Unschedulable, ErrInsufficientDevices⟩, cache)

/-- `Plugin.Reserve`, translated from the source: skip fast-path, cache
lookup, re-run of `Allocate` under the exclusive lock, and only on a
non-empty error-free result the allocator commit plus the recording of the
allocation in the attempt state. -/
def PluginReserve (alloc : Allocator) (cache : NodeDeviceCache) (cycleState : Option preFilterState)
    (pod : Pod) (nodeName : String) : Status × Option preFilterState × NodeDeviceCache :=
  match cycleState with
  | none => (⟨StatusCode.Error, "preFilterState not found"⟩, none, cache)
  | some state =>
    if state.skip then (successStatus, some state, cache)
    else
      match getNodeDevice cache nodeName with
      | none => (⟨StatusCode.UnschedulableAndUnresolvable, ErrMissingDevice⟩, some state, cache)
      | some nodeDeviceInfo =>
        let result := alloc.Allocate nodeName pod state.convertedDeviceResource nodeDeviceInfo
        if result.2 ≠ none ∨ result.1 = [] then
          (⟨StatusCode.Unschedulable, ErrInsufficientDevices⟩, some state, cache)
        else
          (successStatus,
           some { state with allocationResult := result.1 },
           updateNodeDevice cache nodeName (alloc.Reserve pod nodeDeviceInfo result.1))

/-- `Plugin.Unreserve`, translated from the source: skip fast-path, cache
lookup tolerant of a missing record, then the allocator rollback of
`state.allocationResult` and the clearing of that field. -/
def PluginUnreserve (alloc : Allocator) (cache : NodeDeviceCache) (cycleState : Option preFilterState)
    (pod : Pod) (nodeName : String) : Option preFilterState × NodeDeviceCache :=
  match cycleState with
  | none => (none, cache)
  | some state =>
    if state.skip then (some state, cache)
    else
      match getNodeDevice cache nodeName with
      | none => (some state, cache)
      | some nodeDeviceInfo =>
        (some { state with allocationResult := [] },
         updateNodeDevice cache nodeName (alloc.Unreserve pod nodeDeviceInfo state.allocationResult))

/-- Outcome of one attempt of the API-server patch call (the body of the
closure handed to the retry helper): success, an optimistic-concurrency
conflict, or a permanent failure with a message. -/
inductive PatchOutcome where
  | ok
  | conflict
  | fatal : String → PatchOutcome
deriving DecidableEq, Repr

/-- Modelled from the spec: the bounded retry budget of the retry-on-conflict
helper (client-go's default of 5 total steps). -/
def retrySteps : Nat := 5

/-- Modelled from the spec: the error surfaced when the bounded retries are
exhausted by conflicts. -/
def retryExhaustedMsg : String := "conflict: retries exhausted"

/-- Worker of the retry helper: tries attempts `i, i+1, ...` while fuel
lasts, returning (error if any, index after the last attempt made). -/
def retryGo (f : Nat → PatchOutcome) : Nat → Nat → Option String × Nat
  | 0, i => (some retryExhaustedMsg, i)
  | Nat.succ fuel, i =>
      match f i with
      | PatchOutcome.ok => (none, i + 1)
      | PatchOutcome.fatal msg => (some msg, i + 1)
      | PatchOutcome.conflict => retryGo f fuel (i + 1)

/-- Modelled from the spec: `util.RetryOnConflictOrTooManyRequests` — runs
the durable write, retrying only on conflict up to `retrySteps` attempts,
and surfaces the last error once exhausted.  Also returns the number of
attempts made so that boundedness is a statement. -/
def RetryOnConflictOrTooManyRequests (f : Nat → PatchOutcome) : Option String × Nat :=
  retryGo f retrySteps 0

/-- `Plugin.PreBind`, translated from the source: skip fast-path, then the
patch of the pod inside the bounded-retry wrapper; a surviving error becomes
the phase's error status.  The serialization steps (`SetDeviceAllocations`,
`GeneratePodPatch`) fail only on marshalling, which the model treats as
infallible; the API-server call is the outcome oracle `patch`.  The cache is
threaded through untouched: PreBind never consults the allocator or the
node-device cache. -/
def PluginPreBind (cache : NodeDeviceCache) (cycleState : Option preFilterState)
    (_pod : Pod) (patch : Nat → PatchOutcome) : Status × NodeDeviceCache :=
  match cycleState with
  | none => (⟨StatusCode.Error, "preFilterState not found"⟩, cache)
  | some state =>
    if state.skip then (successStatus, cache)
    else
      match (RetryOnConflictOrTooManyRequests patch).1 with
      | none => (successStatus, cache)
      | some msg => (⟨StatusCode.Error, msg⟩, cache)

/-- Modelled from the spec: the host framework's post-Reserve sequence for
the chosen node — run PreBind after a successful Reserve, and invoke
Unreserve before the attempt ends whenever PreBind fails (spec §4.4 and
Scenario 5). -/
def runReserveThenPreBind (alloc : Allocator) (cache : NodeDeviceCache)
    (cycleState : Option preFilterState) (pod : Pod) (nodeName : String)
    (patch : Nat → PatchOutcome) : Status × NodeDeviceCache :=
  let r := PluginReserve alloc cache cycleState pod nodeName
  if r.1.IsSuccess then
    let pb := PluginPreBind r.2.2 r.2.1 pod patch
    if pb.1.IsSuccess then (pb.1, pb.2)
    else
      let u := PluginUnreserve alloc pb.2 r.2.1 pod nodeName
      (pb.1, u.2)
  else (r.1, r.2.2)

/-- Free capacity of a device unit. -/
def freeCap (u : DeviceUnit) : Nat := u.total - u.used

/-- Total amount the allocation assigns to one (type, minor). -/
def amountFor (alloc : DeviceAllocations) (t : DeviceType) (minor : Nat) : Nat :=
  match alloc.find? (fun e => e.1 == t) with
  | some e => (e.2.filter (fun p => p.1 == minor)).foldl (fun a p => a + p.2) 0
  | none => 0

/-- Best-fit order: smaller free capacity first, ties by ascending minor. -/
def bfBefore (a b : DeviceUnit) : Bool :=
  freeCap a < freeCap b || (freeCap a == freeCap b && a.minor ≤ b.minor)

/-- Insertion step of the best-fit sort. -/
def insertBF (u : DeviceUnit) : List DeviceUnit → List DeviceUnit
  | [] => [u]
  | v :: vs => if bfBefore u v then u :: v :: vs else v :: insertBF u vs

/-- Insertion sort in best-fit order. -/
def sortBF : List DeviceUnit → List DeviceUnit
  | [] => []
  | u :: us => insertBF u (sortBF us)

/-- Greedy split of a need across units, consuming free capacity in order. -/
def spreadAlloc : List DeviceUnit → Nat → Option (List AllocEntry)
  | _, 0 => some []
  | [], Nat.succ _ => none
  | u :: rest, Nat.succ n =>
      let take := min (freeCap u) (Nat.succ n)
      if take = 0 then spreadAlloc rest (Nat.succ n)
      else
        match spreadAlloc rest (Nat.succ n - take) with
        | some l => some ((u.minor, take) :: l)
        | none => none

/-- Modelled from the spec: selection for one device type — healthy units of
the type in best-fit order, one unit when a single unit covers the need,
otherwise a greedy split across units. -/
def allocDevice (nd : nodeDevice) (t : DeviceType) (need : Nat) : Option (List AllocEntry) :=
  let cands := sortBF (nd.units.filter (fun u => u.healthy && u.deviceType == t))
  match cands.find? (fun u => need ≤ freeCap u) with
  | some u => some [(u.minor, need)]
  | none => spreadAlloc cands need

/-- The normalized quantity the converted request asks of one device type. -/
def requestedOf (req : String → Int) (t : DeviceType) : Nat := (req (canonicalKey t)).toNat

/-- Modelled from the spec: the allocator dry-run — satisfy every requested
device type or fail atomically with `InsufficientDevices`. -/
def allocateAll (nd : nodeDevice) (req : String → Int) : List DeviceType → Option DeviceAllocations
  | [] => some []
  | t :: ts =>
      let need := requestedOf req t
      if need = 0 then allocateAll nd req ts
      else
        match allocDevice nd t need, allocateAll nd req ts with
        | some entries, some rest => some ((t, entries) :: rest)
        | _, _ => none

/-- Modelled from the spec: the default allocator implementation — a pure
best-fit `Allocate`, a `Reserve` that adds the allocation's amounts into
`used` and records the workload, and an `Unreserve` that subtracts them and
drops the record entry. -/
def defaultAllocator : Allocator where
  Allocate := fun _ _ req nd =>
    match allocateAll nd req deviceTypeOrder with
    | some allocs => (allocs, none)
    | none => ([], some ErrInsufficientDevices)
  Reserve := fun pod nd alloc =>
    { units := nd.units.map (fun u => { u with used := u.used + amountFor alloc u.deviceType u.minor })
      allocations := (pod.name, alloc) :: nd.allocations }
  Unreserve := fun pod nd alloc =>
    { units := nd.units.map (fun u => { u with used := u.used - amountFor alloc u.deviceType u.minor })
      allocations := nd.allocations.filter (fun e => e.1 ≠ pod.name) }

/-- A reference to a `preFilterState` stored in the cycle state: Go's
`*preFilterState` pointer, modelled as an address into a state heap. -/
abbrev StateRef := Nat

/-- `(*preFilterState).Clone`, translated from the source: the method body is
`return s` — it returns the receiver pointer itself, not a copy. -/
def preFilterState.Clone (s : StateRef) : StateRef := s

/-- The heap of attempt states addressed by `StateRef`. -/
abbrev StateHeap := List (StateRef × preFilterState)

/-- Read a state through a reference. -/
def heapRead (h : StateHeap) (r : StateRef) : Option preFilterState :=
  match h.find? (fun e => e.1 == r) with
  | some e => some e.2
  | none => none

/-- Write a state through a reference (the newest binding shadows). -/
def heapWrite (h : StateHeap) (r : StateRef) (s : preFilterState) : StateHeap :=
  (r, s) :: h

/-! ### Helper lemmas -/

theorem getNodeDevice_update_self (cache : NodeDeviceCache) (n : String) (nd₀ nd : nodeDevice)
    (h : getNodeDevice cache n = some nd₀) :
    getNodeDevice (updateNodeDevice cache n nd) n = some nd := by
  induction cache with
  | nil => simp [getNodeDevice, List.find?] at h
  | cons e rest ih =>
    cases hbe : (e.1 == n) with
    | true => simp [updateNodeDevice, getNodeDevice, List.find?, hbe]
    | false =>
      have h' : getNodeDevice rest n = some nd₀ := by
        simpa [getNodeDevice, List.find?, hbe] using h
      simpa [updateNodeDevice, getNodeDevice, List.find?, hbe] using ih h'

theorem reserve_unreserve_units (units : List DeviceUnit) (alloc : DeviceAllocations) :
    (units.map (fun u => { u with used := u.used + amountFor alloc u.deviceType u.minor })).map
      (fun u => { u with used := u.used - amountFor alloc u.deviceType u.minor }) = units := by
  induction units with
  | nil => rfl
  | cons u us ih => simp [ih, Nat.add_sub_cancel]

theorem retryGo_conflict (f : Nat → PatchOutcome) (h : ∀ j, f j = PatchOutcome.conflict) :
    ∀ fuel i, retryGo f fuel i = (some retryExhaustedMsg, i + fuel) := by
  intro fuel
  induction fuel with
  | zero => intro i; simp [retryGo]
  | succ n ih =>
    intro i
    have : i + (n + 1) = (i + 1) + n := by omega
    simp [retryGo, h i, ih, this]

theorem retryGo_le (f : Nat → PatchOutcome) :
    ∀ fuel i, (retryGo f fuel i).2 ≤ i + fuel := by
  intro fuel
  induction fuel with
  | zero => intro i; simp [retryGo]
  | succ n ih =>
    intro i
    cases hf : f i with
    | ok => simp [retryGo, hf]
    | conflict =>
      have := ih (i + 1)
      simp [retryGo, hf]; omega
    | fatal msg => simp [retryGo, hf]

theorem pluginReserve_commit (alloc : Allocator) (cache : NodeDeviceCache)
    (state : preFilterState) (pod : Pod) (nodeName : String) (nd : nodeDevice)
    (res : DeviceAllocations)
    (hskip : state.skip = false) (hnd : getNodeDevice cache nodeName = some nd)
    (halloc : alloc.Allocate nodeName pod state.convertedDeviceResource nd = (res, none))
    (hne : res ≠ []) :
    PluginReserve alloc cache (some state) pod nodeName =
      (successStatus, some { state with allocationResult := res },
       updateNodeDevice cache nodeName (alloc.Reserve pod nd res)) := by
  simp [PluginReserve, hskip, hnd, halloc, hne]

theorem pluginReserve_insufficient (alloc : Allocator) (cache : NodeDeviceCache)
    (state : preFilterState) (pod : Pod) (nodeName : String) (nd : nodeDevice)
    (res : DeviceAllocations) (err : Option String)
    (hskip : state.skip = false) (hnd : getNodeDevice cache nodeName = some nd)
    (halloc : alloc.Allocate nodeName pod state.convertedDeviceResource nd = (res, err))
    (hfail : err ≠ none ∨ res = []) :
    PluginReserve alloc cache (some state) pod nodeName =
      (⟨StatusCode.Unschedulable, ErrInsufficientDevices⟩, some state, cache) := by
  have hc : (alloc.Allocate nodeName pod state.convertedDeviceResource nd).2 ≠ none ∨
      (alloc.Allocate nodeName pod state.convertedDeviceResource nd).1 = [] := by
    rw [halloc]; exact hfail
  simp only [PluginReserve, hskip, hnd]
  simp [hc]

/-- Whether an `Except` is a success. -/
def isOkB {α : Type} : Except String α → Bool
  | Except.ok _ => true
  | Except.error _ => false

/-- Whether PreFilter's switch body for device type `t` succeeds on the
request (absent, or present and valid). -/
def typeOk (req : Req) (t : DeviceType) : Bool :=
  !hasDeviceResource req t ||
    (match t with
     | DeviceType.GPU => isOkB (ValidateGPURequest req)
     | DeviceType.RDMA => isOkB (validateCommonDeviceRequest req DeviceType.RDMA)
     | DeviceType.FPGA => isOkB (validateCommonDeviceRequest req DeviceType.FPGA))

/-- The pointwise contribution of device type `t` to the converted resource
map (zero when the type is absent from the request). -/
def typeContrib (req : Req) (t : DeviceType) (r : String) : Int :=
  if hasDeviceResource req t then
    match t with
    | DeviceType.GPU =>
        (match ValidateGPURequest req with
         | Except.ok combo => ConvertGPUResource req combo r
         | Except.error _ => 0)
    | DeviceType.RDMA => convertCommonDeviceResource req DeviceType.RDMA r
    | DeviceType.FPGA => convertCommonDeviceResource req DeviceType.FPGA r
  else 0

theorem stepDevice_err (req : Req) (st : preFilterState) (t : DeviceType)
    (h : typeOk req t = false) : ∃ e, stepDevice req st t = Except.error e := by
  cases t with
  | GPU =>
    cases hhas : hasDeviceResource req DeviceType.GPU with
    | false => simp [typeOk, hhas] at h
    | true =>
      cases hv : ValidateGPURequest req with
      | ok combo => simp [typeOk, hhas, hv, isOkB] at h
      | error e => exact ⟨e, by simp [stepDevice, hhas, hv]⟩
  | RDMA =>
    cases hhas : hasDeviceResource req DeviceType.RDMA with
    | false => simp [typeOk, hhas] at h
    | true =>
      cases hv : validateCommonDeviceRequest req DeviceType.RDMA with
      | ok u => simp [typeOk, hhas, hv, isOkB] at h
      | error e => exact ⟨e, by simp [stepDevice, hhas, hv]⟩
  | FPGA =>
    cases hhas : hasDeviceResource req DeviceType.FPGA with
    | false => simp [typeOk, hhas] at h
    | true =>
      cases hv : validateCommonDeviceRequest req DeviceType.FPGA with
      | ok u => simp [typeOk, hhas, hv, isOkB] at h
      | error e => exact ⟨e, by simp [stepDevice, hhas, hv]⟩

theorem stepDevice_ok (req : Req) (st : preFilterState) (t : DeviceType)
    (h : typeOk req t = true) :
    ∃ st', stepDevice req st t = Except.ok st' ∧
      st'.skip = (st.skip && !hasDeviceResource req t) ∧
      st'.allocationResult = st.allocationResult ∧
      ∀ r, st'.convertedDeviceResource r = st.convertedDeviceResource r + typeContrib req t r := by
  cases t with
  | GPU =>
    cases hhas : hasDeviceResource req DeviceType.GPU with
    | false => exact ⟨st, by simp [stepDevice, hhas], by simp [hhas], rfl,
        fun r => by simp [typeContrib, hhas]⟩
    | true =>
      cases hv : ValidateGPURequest req with
      | error e => simp [typeOk, hhas, hv, isOkB] at h
      | ok combo =>
        refine ⟨{ skip := false, allocationResult := st.allocationResult,
                  convertedDeviceResource :=
                    quotaAdd st.convertedDeviceResource (ConvertGPUResource req combo) },
                ?_, ?_, rfl, fun r => ?_⟩
        · simp [stepDevice, hhas, hv]
        · simp [hhas]
        · simp [quotaAdd, typeContrib, hhas, hv]
  | RDMA =>
    cases hhas : hasDeviceResource req DeviceType.RDMA with
    | false => exact ⟨st, by simp [stepDevice, hhas], by simp [hhas], rfl,
        fun r => by simp [typeContrib, hhas]⟩
    | true =>
      cases hv : validateCommonDeviceRequest req DeviceType.RDMA with
      | error e => simp [typeOk, hhas, hv, isOkB] at h
      | ok u =>
        refine ⟨{ skip := false, allocationResult := st.allocationResult,
                  convertedDeviceResource :=
                    quotaAdd st.convertedDeviceResource
                      (convertCommonDeviceResource req DeviceType.RDMA) },
                ?_, ?_, rfl, fun r => ?_⟩
        · simp [stepDevice, hhas, hv]
        · simp [hhas]
        · simp [quotaAdd, typeContrib, hhas]
  | FPGA =>
    cases hhas : hasDeviceResource req DeviceType.FPGA with
    | false => exact ⟨st, by simp [stepDevice, hhas], by simp [hhas], rfl,
        fun r => by simp [typeContrib, hhas]⟩
    | true =>
      cases hv : validateCommonDeviceRequest req DeviceType.FPGA with
      | error e => simp [typeOk, hhas, hv, isOkB] at h
      | ok u =>
        refine ⟨{ skip := false, allocationResult := st.allocationResult,
                  convertedDeviceResource :=
                    quotaAdd st.convertedDeviceResource
                      (convertCommonDeviceResource req DeviceType.FPGA) },
                ?_, ?_, rfl, fun r => ?_⟩
        · simp [stepDevice, hhas, hv]
        · simp [hhas]
        · simp [quotaAdd, typeContrib, hhas]

theorem preFilterLoop_ok (req : Req) (o : List DeviceType)
    (h : ∀ t ∈ o, typeOk req t = true) :
    ∀ st, ∃ s, preFilterLoop req o st = Except.ok s ∧
      s.skip = (st.skip && !(o.any (fun t => hasDeviceResource req t))) ∧
      s.allocationResult = st.allocationResult ∧
      ∀ r, s.convertedDeviceResource r =
        st.convertedDeviceResource r + ((o.map (fun t => typeContrib req t r)).sum) := by
  induction o with
  | nil => intro st; exact ⟨st, rfl, by simp, rfl, fun r => by simp⟩
  | cons t ts ih =>
    intro st
    have ht : typeOk req t = true := h t (by simp)
    obtain ⟨st1, hstep, hskip1, har1, hconv1⟩ := stepDevice_ok req st t ht
    obtain ⟨s, hloop, hskip2, har2, hconv2⟩ := ih (fun u hu => h u (by simp [hu])) st1
    refine ⟨s, ?_, ?_, ?_, fun r => ?_⟩
    · simp [preFilterLoop, hstep, hloop]
    · rw [hskip2, hskip1]
      simp [List.any_cons, Bool.not_or, Bool.and_assoc]
    · rw [har2, har1]
    · rw [hconv2 r, hconv1 r]
      simp [List.sum_cons, Int.add_assoc]

theorem preFilterLoop_err (req : Req) (o : List DeviceType)
    (h : ∃ t ∈ o, typeOk req t = false) :
    ∀ st, ∃ e, preFilterLoop req o st = Except.error e := by
  induction o with
  | nil => simp at h
  | cons t ts ih =>
    intro st
    cases hok : typeOk req t with
    | false =>
      obtain ⟨e, hstep⟩ := stepDevice_err req st t hok
      exact ⟨e, by simp [preFilterLoop, hstep]⟩
    | true =>
      obtain ⟨st1, hstep, _, _, _⟩ := stepDevice_ok req st t hok
      have hts : ∃ u ∈ ts, typeOk req u = false := by
        obtain ⟨u, hu, huf⟩ := h
        rcases List.mem_cons.mp hu with heq | hmem
        · subst heq; rw [hok] at huf; cases huf
        · exact ⟨u, hmem, huf⟩
      obtain ⟨e, hloop⟩ := ih hts st1
      exact ⟨e, by simp [preFilterLoop, hstep, hloop]⟩

theorem preFilterLoop_no_device (req : Req) (o : List DeviceType)
    (h : ∀ t, hasDeviceResource req t = false) :
    ∀ st, preFilterLoop req o st = Except.ok st := by
  induction o with
  | nil => intro st; rfl
  | cons t ts ih =>
    intro st
    have hstep : stepDevice req st t = Except.ok st := by
      cases t <;> simp [stepDevice, h]
    simp [preFilterLoop, hstep, ih]

/-! ### Shared concrete examples used by the witnesses -/

/-- A converted resource map asking for one RDMA unit. -/
def exampleConv : String → Int := fun r => if r = "vendor/rdma" then 1 else 0

/-- A pod asking for one RDMA unit. -/
def examplePod : Pod := { name := "p1", containers := [[("vendor/rdma", 1000)]] }

/-- A pod with no device resources at all. -/
def exampleCpuPod : Pod := { name := "c1", containers := [[("cpu", 1000)]] }

/-- A pod mixing the whole-card and core-percentage GPU combinations across
its two containers. -/
def exampleBadGpuPod : Pod :=
  { name := "b1", containers := [[("vendor/gpu", 1000)], [("vendor/gpu-core", 50000)]] }

/-- A node device record with one free RDMA unit of capacity 1. -/
def exampleND : nodeDevice :=
  { units := [{ deviceType := DeviceType.RDMA, minor := 0, total := 1, used := 0, healthy := true }]
    allocations := [] }

/-- A cache holding `exampleND` under node name n1. -/
def exampleCache : NodeDeviceCache := [("n1", exampleND)]

/-- An attempt state past PreFilter for `examplePod` (skip cleared). -/
def exampleState : preFilterState :=
  { skip := false, allocationResult := [], convertedDeviceResource := exampleConv }

/-- An attempt state in the skip state. -/
def exampleSkipState : preFilterState :=
  { skip := true, allocationResult := [], convertedDeviceResource := emptyResources }

/-- The allocation the default allocator selects for `examplePod` on
`exampleND`. -/
def exampleAlloc : DeviceAllocations := [(DeviceType.RDMA, [(0, 1)])]

/-! ### Claims -/

/-- C1: `Plugin.Reserve`, for the finally selected node, re-runs the
allocation on the node's current record under its exclusive guard before
committing: only when the re-run `Allocate` returns a non-empty result with
no error does it commit through the allocator's `Reserve` and record the
allocation in the attempt state; when the re-run fails or returns an empty
result it returns the `Insufficient Devices` outcome and leaves the attempt
state and the inventory unchanged. -/
theorem reserve_revalidates_before_commit (alloc : Allocator) (cache : NodeDeviceCache)
    (state : preFilterState) (pod : Pod) (nodeName : String) (nd : nodeDevice)
    (hskip : state.skip = false) (hnd : getNodeDevice cache nodeName = some nd) :
    (∀ res, alloc.Allocate nodeName pod state.convertedDeviceResource nd = (res, none) →
       res ≠ [] →
       PluginReserve alloc cache (some state) pod nodeName =
         (successStatus, some { state with allocationResult := res },
          updateNodeDevice cache nodeName (alloc.Reserve pod nd res))) ∧
    (∀ res err, alloc.Allocate nodeName pod state.convertedDeviceResource nd = (res, err) →
       err ≠ none ∨ res = [] →
       PluginReserve alloc cache (some state) pod nodeName =
         (⟨StatusCode.Unschedulable, ErrInsufficientDevices⟩, some state, cache)) :=
  ⟨fun res h1 h2 => pluginReserve_commit alloc cache state pod nodeName nd res hskip hnd h1 h2,
   fun res err h1 h2 =>
     pluginReserve_insufficient alloc cache state pod nodeName nd res err hskip hnd h1 h2⟩

theorem reserve_revalidates_before_commit_witness :
    exampleState.skip = false ∧
    getNodeDevice exampleCache "n1" = some exampleND ∧
    PluginReserve defaultAllocator exampleCache (some exampleState) examplePod "n1" =
      (successStatus, some { exampleState with allocationResult := exampleAlloc },
       updateNodeDevice exampleCache "n1" (defaultAllocator.Reserve examplePod exampleND exampleAlloc)) :=
  ⟨rfl, rfl,
   (reserve_revalidates_before_commit defaultAllocator exampleCache exampleState examplePod "n1"
      exampleND rfl rfl).1 exampleAlloc rfl (by decide)⟩

/-- C4: with a non-skip attempt state and no device record for the candidate
node, `Plugin.Filter` returns the `MissingDevice` outcome with the
unschedulable-and-unresolvable code (node excluded, not an attempt-aborting
error), and `Plugin.Reserve` behaves the same way. -/
theorem missing_record_excludes_node (alloc : Allocator) (cache : NodeDeviceCache)
    (state : preFilterState) (pod : Pod) (nodeName : String)
    (hskip : state.skip = false) (hmiss : getNodeDevice cache nodeName = none) :
    PluginFilter alloc cache (some state) pod (some nodeName) =
      (⟨StatusCode.UnschedulableAndUnresolvable, ErrMissingDevice⟩, cache) ∧
    PluginReserve alloc cache (some state) pod nodeName =
      (⟨StatusCode.UnschedulableAndUnresolvable, ErrMissingDevice⟩, some state, cache) := by
  constructor
  · simp [PluginFilter, hskip, hmiss]
  · simp [PluginReserve, hskip, hmiss]

theorem missing_record_excludes_node_witness :
    exampleState.skip = false ∧
    getNodeDevice ([] : NodeDeviceCache) "n1" = none ∧
    (PluginFilter defaultAllocator [] (some exampleState) examplePod (some "n1") =
       (⟨StatusCode.UnschedulableAndUnresolvable, ErrMissingDevice⟩, ([] : NodeDeviceCache)) ∧
     PluginReserve defaultAllocator [] (some exampleState) examplePod "n1" =
       (⟨StatusCode.UnschedulableAndUnresolvable, ErrMissingDevice⟩, some exampleState,
        ([] : NodeDeviceCache))) :=
  ⟨rfl, rfl,
   missing_record_excludes_node defaultAllocator [] exampleState examplePod "n1" rfl rfl⟩

/-- C5: `Plugin.Filter` is read-only against the inventory — for every
allocator, cache, attempt state, pod and node, the cache it returns is the
cache it was given, whether the dry-run check succeeds or fails. -/
theorem filter_is_readonly (alloc : Allocator) (cache : NodeDeviceCache)
    (cycleState : Option preFilterState) (pod : Pod) (nodeInfo : Option String) :
    (PluginFilter alloc cache cycleState pod nodeInfo).2 = cache := by
  unfold PluginFilter
  repeat' split
  all_goals try rfl
  all_goals dsimp only
  all_goals split <;> rfl

/-- C9: `Plugin.Unreserve` is safe when no reservation exists — in the skip
state, or when the node has no device record, it changes neither the attempt
state nor any inventory record. -/
theorem unreserve_noop_when_no_reservation (alloc : Allocator) (cache : NodeDeviceCache)
    (state : preFilterState) (pod : Pod) (nodeName : String)
    (h : state.skip = true ∨ getNodeDevice cache nodeName = none) :
    PluginUnreserve alloc cache (some state) pod nodeName = (some state, cache) := by
  cases h with
  | inl hs => simp [PluginUnreserve, hs]
  | inr hn =>
    by_cases hs : state.skip
    · simp [PluginUnreserve, hs]
    · simp [PluginUnreserve, hs, hn]

theorem unreserve_noop_when_no_reservation_witness :
    (exampleSkipState.skip = true ∨ getNodeDevice exampleCache "n1" = none) ∧
    PluginUnreserve defaultAllocator exampleCache (some exampleSkipState) examplePod "n1" =
      (some exampleSkipState, exampleCache) :=
  ⟨Or.inl rfl,
   unreserve_noop_when_no_reservation defaultAllocator exampleCache exampleSkipState examplePod
     "n1" (Or.inl rfl)⟩

/-- C10: `(*preFilterState).Clone` returns the receiver pointer itself, so a
write through one reference is observed through any clone of it. -/
theorem clone_returns_receiver :
    (∀ r : StateRef, preFilterState.Clone r = r) ∧
    (∀ (h : StateHeap) (r : StateRef) (s : preFilterState),
       heapRead (heapWrite h r s) (preFilterState.Clone r) = some s) := by
  constructor
  · intro r; rfl
  · intro h r s
    simp [heapRead, heapWrite, preFilterState.Clone, List.find?]

/-- C3: a pod whose ask references no recognized device type gets an attempt
state with `skip=true` from PreFilter, and from any skip state every later
phase returns success with the attempt state and the node-device cache
unchanged, for every allocator, cache, node and patch oracle. -/
theorem skip_request_noops (pod pod2 : Pod) (alloc : Allocator) (cache : NodeDeviceCache)
    (state : preFilterState) (nodeName : String) (nodeInfo : Option String)
    (patch : Nat → PatchOutcome)
    (hreq : ∀ t, hasDeviceResource (podRequest pod) t = false) (hskip : state.skip = true) :
    (PluginPreFilter pod = (successStatus, some initPreFilterState) ∧
       initPreFilterState.skip = true) ∧
    PluginFilter alloc cache (some state) pod2 nodeInfo = (successStatus, cache) ∧
    PluginReserve alloc cache (some state) pod2 nodeName = (successStatus, some state, cache) ∧
    PluginUnreserve alloc cache (some state) pod2 nodeName = (some state, cache) ∧
    PluginPreBind cache (some state) pod2 patch = (successStatus, cache) := by
  refine ⟨⟨?_, rfl⟩, ?_, ?_, ?_, ?_⟩
  · have hloop := preFilterLoop_no_device (podRequest pod) deviceTypeOrder hreq initPreFilterState
    simp [PluginPreFilter, PreFilterRun, hloop]
  · simp [PluginFilter, hskip]
  · simp [PluginReserve, hskip]
  · simp [PluginUnreserve, hskip]
  · simp [PluginPreBind, hskip]

theorem skip_request_noops_witness :
    (∀ t, hasDeviceResource (podRequest exampleCpuPod) t = false) ∧
    exampleSkipState.skip = true ∧
    ((PluginPreFilter exampleCpuPod = (successStatus, some initPreFilterState) ∧
        initPreFilterState.skip = true) ∧
     PluginFilter defaultAllocator exampleCache (some exampleSkipState) examplePod (some "n1") =
       (successStatus, exampleCache) ∧
     PluginReserve defaultAllocator exampleCache (some exampleSkipState) examplePod "n1" =
       (successStatus, some exampleSkipState, exampleCache) ∧
     PluginUnreserve defaultAllocator exampleCache (some exampleSkipState) examplePod "n1" =
       (some exampleSkipState, exampleCache) ∧
     PluginPreBind exampleCache (some exampleSkipState) examplePod (fun _ => PatchOutcome.ok) =
       (successStatus, exampleCache)) :=
  ⟨by intro t; cases t <;> rfl, rfl,
   skip_request_noops exampleCpuPod examplePod defaultAllocator exampleCache exampleSkipState
     "n1" (some "n1") (fun _ => PatchOutcome.ok) (by intro t; cases t <;> rfl) rfl⟩

/-- C6: a validation error during normalization — an inconsistent GPU
combination, or a malformed RDMA/FPGA quantity — makes PreFilter return an
error-coded status and write no attempt state, aborting the whole scheduling
attempt rather than excluding a single node. -/
theorem validation_error_aborts_attempt (pod : Pod)
    (h : (hasDeviceResource (podRequest pod) DeviceType.GPU = true ∧
            ∃ e, ValidateGPURequest (podRequest pod) = Except.error e) ∨
         (hasDeviceResource (podRequest pod) DeviceType.RDMA = true ∧
            ∃ e, validateCommonDeviceRequest (podRequest pod) DeviceType.RDMA = Except.error e) ∨
         (hasDeviceResource (podRequest pod) DeviceType.FPGA = true ∧
            ∃ e, validateCommonDeviceRequest (podRequest pod) DeviceType.FPGA = Except.error e)) :
    (PluginPreFilter pod).1.code = StatusCode.Error ∧ (PluginPreFilter pod).2 = none := by
  have hbad : ∃ t ∈ deviceTypeOrder, typeOk (podRequest pod) t = false := by
    rcases h with ⟨hh, e, hv⟩ | ⟨hh, e, hv⟩ | ⟨hh, e, hv⟩
    · exact ⟨DeviceType.GPU, by simp [deviceTypeOrder], by simp [typeOk, hh, hv, isOkB]⟩
    · exact ⟨DeviceType.RDMA, by simp [deviceTypeOrder], by simp [typeOk, hh, hv, isOkB]⟩
    · exact ⟨DeviceType.FPGA, by simp [deviceTypeOrder], by simp [typeOk, hh, hv, isOkB]⟩
  obtain ⟨e, hloop⟩ := preFilterLoop_err (podRequest pod) deviceTypeOrder hbad initPreFilterState
  simp [PluginPreFilter, PreFilterRun, hloop]

theorem validation_error_aborts_attempt_witness :
    (hasDeviceResource (podRequest exampleBadGpuPod) DeviceType.GPU = true ∧
       ValidateGPURequest (podRequest exampleBadGpuPod) = Except.error InvalidGPUCombination) ∧
    (PluginPreFilter exampleBadGpuPod).1.code = StatusCode.Error ∧
    (PluginPreFilter exampleBadGpuPod).2 = none :=
  ⟨⟨rfl, rfl⟩,
   validation_error_aborts_attempt exampleBadGpuPod
     (Or.inl ⟨rfl, ⟨InvalidGPUCombination, rfl⟩⟩)⟩

/-- C7: normalization is deterministic in the face of Go's unspecified map
iteration order — for any two pods with equal aggregate resource asks and
any two iteration orders that are permutations of each other, PreFilter
either aborts in both runs, or produces attempt states with the same skip
flag and pointwise-equal converted device resource maps. -/
theorem normalization_order_independent (o1 o2 : List DeviceType) (pod1 pod2 : Pod)
    (hperm : o1.Perm o2) (hreq : podRequest pod1 = podRequest pod2) :
    ((PreFilterRun o1 (podRequest pod1)).2 = none ↔ (PreFilterRun o2 (podRequest pod2)).2 = none) ∧
    (∀ s1 s2, (PreFilterRun o1 (podRequest pod1)).2 = some s1 →
       (PreFilterRun o2 (podRequest pod2)).2 = some s2 →
       s1.skip = s2.skip ∧
       ∀ r, s1.convertedDeviceResource r = s2.convertedDeviceResource r) := by
  rw [← hreq]
  by_cases hall : ∀ t ∈ o1, typeOk (podRequest pod1) t = true
  · have hall2 : ∀ t ∈ o2, typeOk (podRequest pod1) t = true := fun t ht =>
      hall t (hperm.mem_iff.mpr ht)
    obtain ⟨u1, h1, hskip1, _, hconv1⟩ :=
      preFilterLoop_ok (podRequest pod1) o1 hall initPreFilterState
    obtain ⟨u2, h2, hskip2, _, hconv2⟩ :=
      preFilterLoop_ok (podRequest pod1) o2 hall2 initPreFilterState
    constructor
    · simp [PreFilterRun, h1, h2]
    · intro s1 s2 hs1 hs2
      have e1 : u1 = s1 := by
        rw [PreFilterRun, h1] at hs1
        exact Option.some.inj hs1
      have e2 : u2 = s2 := by
        rw [PreFilterRun, h2] at hs2
        exact Option.some.inj hs2
      subst e1; subst e2
      constructor
      · rw [hskip1, hskip2]
        have hany : (o1.any fun t => hasDeviceResource (podRequest pod1) t) =
            (o2.any fun t => hasDeviceResource (podRequest pod1) t) := by
          rw [Bool.eq_iff_iff]
          simp only [List.any_eq_true]
          constructor
          · rintro ⟨x, hx, hpx⟩; exact ⟨x, hperm.mem_iff.mp hx, hpx⟩
          · rintro ⟨x, hx, hpx⟩; exact ⟨x, hperm.mem_iff.mpr hx, hpx⟩
        rw [hany]
      · intro r
        rw [hconv1 r, hconv2 r]
        have hsum := (hperm.map (fun t => typeContrib (podRequest pod1) t r)).sum_eq
        rw [hsum]
  · have hex : ∃ t ∈ o1, typeOk (podRequest pod1) t = false := by
      rcases not_forall.mp hall with ⟨t, ht⟩
      rcases Classical.not_imp.mp ht with ⟨hmem, hne⟩
      exact ⟨t, hmem, by simpa using hne⟩
    have hex2 : ∃ t ∈ o2, typeOk (podRequest pod1) t = false := by
      obtain ⟨t, ht, hf⟩ := hex
      exact ⟨t, hperm.mem_iff.mp ht, hf⟩
    obtain ⟨e1, h1⟩ := preFilterLoop_err (podRequest pod1) o1 hex initPreFilterState
    obtain ⟨e2, h2⟩ := preFilterLoop_err (podRequest pod1) o2 hex2 initPreFilterState
    constructor
    · simp [PreFilterRun, h1, h2]
    · intro s1 s2 hs1 hs2
      rw [PreFilterRun, h1] at hs1
      cases hs1

theorem normalization_order_independent_witness :
    ([DeviceType.RDMA, DeviceType.FPGA, DeviceType.GPU].Perm deviceTypeOrder) ∧
    podRequest examplePod = podRequest examplePod ∧
    (((PreFilterRun [DeviceType.RDMA, DeviceType.FPGA, DeviceType.GPU]
         (podRequest examplePod)).2 = none ↔
        (PreFilterRun deviceTypeOrder (podRequest examplePod)).2 = none) ∧
     (∀ s1 s2,
        (PreFilterRun [DeviceType.RDMA, DeviceType.FPGA, DeviceType.GPU]
           (podRequest examplePod)).2 = some s1 →
        (PreFilterRun deviceTypeOrder (podRequest examplePod)).2 = some s2 →
        s1.skip = s2.skip ∧
        ∀ r, s1.convertedDeviceResource r = s2.convertedDeviceResource r)) :=
  ⟨by decide, rfl,
   normalization_order_independent [DeviceType.RDMA, DeviceType.FPGA, DeviceType.GPU]
     deviceTypeOrder examplePod examplePod (by decide) rfl⟩

/-- C8: PreBind retries only the durable write inside the bounded-retry
wrapper — at most `retrySteps` attempts are made, the node-device cache is
left untouched (no re-run of Allocate or Reserve), and once the retries are
exhausted the error is returned as the phase status rather than swallowed. -/
theorem prebind_bounded_retry_surfaces_error (cache : NodeDeviceCache) (state : preFilterState)
    (pod : Pod) (hskip : state.skip = false) :
    (∀ patch, (RetryOnConflictOrTooManyRequests patch).2 ≤ retrySteps) ∧
    (∀ patch, (PluginPreBind cache (some state) pod patch).2 = cache) ∧
    (∀ patch, (∀ i, patch i = PatchOutcome.conflict) →
       PluginPreBind cache (some state) pod patch =
         (⟨StatusCode.Error, retryExhaustedMsg⟩, cache)) := by
  refine ⟨fun patch => ?_, fun patch => ?_, fun patch hconf => ?_⟩
  · have hb := retryGo_le patch retrySteps 0
    simpa [RetryOnConflictOrTooManyRequests] using hb
  · cases hres : (RetryOnConflictOrTooManyRequests patch).1 with
    | none => simp [PluginPreBind, hskip, hres]
    | some msg => simp [PluginPreBind, hskip, hres]
  · have hret := retryGo_conflict patch hconf retrySteps 0
    simp [PluginPreBind, hskip, RetryOnConflictOrTooManyRequests, hret]

theorem prebind_bounded_retry_surfaces_error_witness :
    exampleState.skip = false ∧
    ((∀ patch, (RetryOnConflictOrTooManyRequests patch).2 ≤ retrySteps) ∧
     (∀ patch, (PluginPreBind exampleCache (some exampleState) examplePod patch).2 = exampleCache) ∧
     (∀ patch, (∀ i, patch i = PatchOutcome.conflict) →
        PluginPreBind exampleCache (some exampleState) examplePod patch =
          (⟨StatusCode.Error, retryExhaustedMsg⟩, exampleCache))) :=
  ⟨rfl, prebind_bounded_retry_surfaces_error exampleCache exampleState examplePod rfl⟩

/-- C2: when Reserve succeeded and the persistence write then fails with its
bounded retries exhausted, the modelled framework sequence invokes Unreserve
before the attempt ends — the final status surfaces the retry-exhaustion
error and the reserved node's device units, in particular every
usedCapacity, are exactly their pre-Reserve values. -/
theorem prebind_failure_triggers_rollback (cache : NodeDeviceCache) (state : preFilterState)
    (pod : Pod) (nodeName : String) (nd : nodeDevice) (res : DeviceAllocations)
    (patch : Nat → PatchOutcome)
    (hskip : state.skip = false) (hnd : getNodeDevice cache nodeName = some nd)
    (halloc : defaultAllocator.Allocate nodeName pod state.convertedDeviceResource nd = (res, none))
    (hne : res ≠ []) (hconf : ∀ i, patch i = PatchOutcome.conflict) :
    (runReserveThenPreBind defaultAllocator cache (some state) pod nodeName patch).1 =
      ⟨StatusCode.Error, retryExhaustedMsg⟩ ∧
    ∃ nd1,
      getNodeDevice
          (runReserveThenPreBind defaultAllocator cache (some state) pod nodeName patch).2
          nodeName = some nd1 ∧
      nd1.units = nd.units := by
  have hres :=
    pluginReserve_commit defaultAllocator cache state pod nodeName nd res hskip hnd halloc hne
  have hlookup2 :
      getNodeDevice (updateNodeDevice cache nodeName (defaultAllocator.Reserve pod nd res))
        nodeName = some (defaultAllocator.Reserve pod nd res) :=
    getNodeDevice_update_self cache nodeName nd (defaultAllocator.Reserve pod nd res) hnd
  have hret := retryGo_conflict patch hconf retrySteps 0
  have hpb :
      PluginPreBind (updateNodeDevice cache nodeName (defaultAllocator.Reserve pod nd res))
        (some { state with allocationResult := res }) pod patch =
      (⟨StatusCode.Error, retryExhaustedMsg⟩,
       updateNodeDevice cache nodeName (defaultAllocator.Reserve pod nd res)) := by
    simp [PluginPreBind, hskip, RetryOnConflictOrTooManyRequests, hret]
  have hun :
      PluginUnreserve defaultAllocator
        (updateNodeDevice cache nodeName (defaultAllocator.Reserve pod nd res))
        (some { state with allocationResult := res }) pod nodeName =
      (some { state with allocationResult := [] },
       updateNodeDevice (updateNodeDevice cache nodeName (defaultAllocator.Reserve pod nd res))
         nodeName
         (defaultAllocator.Unreserve pod (defaultAllocator.Reserve pod nd res) res)) := by
    simp [PluginUnreserve, hskip, hlookup2]
  have hrun :
      runReserveThenPreBind defaultAllocator cache (some state) pod nodeName patch =
      ((⟨StatusCode.Error, retryExhaustedMsg⟩ : Status),
       updateNodeDevice (updateNodeDevice cache nodeName (defaultAllocator.Reserve pod nd res))
         nodeName
         (defaultAllocator.Unreserve pod (defaultAllocator.Reserve pod nd res) res)) := by
    rw [runReserveThenPreBind, hres]
    simp [Status.IsSuccess, successStatus, hpb, hun]
  have hunits :
      (defaultAllocator.Unreserve pod (defaultAllocator.Reserve pod nd res) res).units =
        nd.units := by
    simp only [defaultAllocator]
    exact reserve_unreserve_units nd.units res
  refine ⟨by rw [hrun],
          ⟨defaultAllocator.Unreserve pod (defaultAllocator.Reserve pod nd res) res, ?_, hunits⟩⟩
  rw [hrun]
  exact getNodeDevice_update_self _ nodeName (defaultAllocator.Reserve pod nd res) _ hlookup2

theorem prebind_failure_triggers_rollback_witness :
    exampleState.skip = false ∧
    getNodeDevice exampleCache "n1" = some exampleND ∧
    defaultAllocator.Allocate "n1" examplePod exampleState.convertedDeviceResource exampleND =
      (exampleAlloc, none) ∧
    ((runReserveThenPreBind defaultAllocator exampleCache (some exampleState) examplePod "n1"
        (fun _ => PatchOutcome.conflict)).1 = ⟨StatusCode.Error, retryExhaustedMsg⟩ ∧
     ∃ nd1,
       getNodeDevice
           (runReserveThenPreBind defaultAllocator exampleCache (some exampleState) examplePod
             "n1" (fun _ => PatchOutcome.conflict)).2 "n1" = some nd1 ∧
       nd1.units = exampleND.units) :=
  ⟨rfl, rfl, rfl,
   prebind_failure_triggers_rollback exampleCache exampleState examplePod "n1" exampleND
     exampleAlloc (fun _ => PatchOutcome.conflict) rfl rfl rfl (by decide) (fun _ => rfl)⟩
